import Mathlib

/-!
Shallow embedding of the GreenShield backend core: the account lifecycle
controllers (signup, login, verifyOTP, resendOTP) and the report lifecycle
controllers (submitReport, getUserReports, getCommunityReports, getReportById,
updateReport, deleteReport), translated from
`backend/middleware/validation.js` (controllers section) and
`backend/utils/emailService.js`.

Modelling conventions:
- The Prisma store is a pure value: a list of users and a list of reports.
  `prisma.user.update({where:{id}})` / `prisma.report.update` become a map
  over the list replacing the row(s) with the given id.
- Timestamps (`Date.now()`, `new Date()`) are milliseconds as `Nat`,
  passed in as an explicit `now` argument.
- `Math.random()` is an explicit rational argument `r` with `0 ≤ r < 1`.
- bcrypt hashing and comparison are explicit function arguments
  (`hash : String → String`, `compare : String → String → Bool`).
- `jwt.sign({userId})` becomes `jwtSign : Nat → Token`.
- Whether `sendOTPEmail` succeeded is an explicit boolean argument
  `emailSent` (the source collapses both a thrown error and a `false`
  return into `emailSent = false`).
- Each HTTP handler becomes a function returning
  `Except ErrResp <payload> × <store>`: the `res.status(...).json(...)`
  error responses become `.error ⟨status, message⟩`, success responses
  `.ok`, and the second component is the store after the handler ran.
- JS truthiness on the strings involved: `!s` is `s = ""` (the fields
  tested are strings or absent, and an absent field behaves like `""`
  for every branch modelled here); `!location` for the object field is
  `Option.isNone`.
-/

namespace GreenShield

/-- User row of the Prisma store.  Fields are those read or written by the
controllers: id, name, mobile, email, password (the stored bcrypt digest),
isEmailVerified, otp, otpExpiry, points, role, createdAt. -/
structure User where
  id : Nat
  name : String
  mobile : String
  email : String
  password : String
  isEmailVerified : Bool
  otp : Option String
  otpExpiry : Option Nat
  points : Int
  role : String
  createdAt : Nat
deriving DecidableEq

/-- Report row of the Prisma store, as written by `submitReport`. -/
structure Report where
  id : Nat
  category : String
  description : String
  latitude : ℚ
  longitude : ℚ
  address : String
  photo : String
  status : String
  userId : Nat
  createdAt : Nat
  updatedAt : Nat
deriving DecidableEq

/-- The persistent store: Prisma's `user` and `report` tables. -/
structure Store where
  users : List User
  reports : List Report
deriving DecidableEq

/-- An error response: `res.status(status).json({success:false, message})`. -/
structure ErrResp where
  status : Nat
  message : String
deriving DecidableEq

/-- The sanitized user shape produced by the Prisma `select` used in
signup / login / verifyOTP: id, name, mobile, email, isEmailVerified,
createdAt — no password, no otp, no otpExpiry. -/
structure PublicUser where
  id : Nat
  name : String
  mobile : String
  email : String
  isEmailVerified : Bool
  createdAt : Nat
deriving DecidableEq

/-- A signed session token: `jwt.sign({ userId: user.id }, ...)`.  Only the
bound user id is observable in this core. -/
structure Token where
  userId : Nat
deriving DecidableEq

/-- Token issuance, `jwt.sign({ userId }, ...)`. -/
def jwtSign (userId : Nat) : Token := ⟨userId⟩

/-- Projection of a user row to the sanitized select used by the auth
controllers. -/
def sanitize (u : User) : PublicUser :=
  ⟨u.id, u.name, u.mobile, u.email, u.isEmailVerified, u.createdAt⟩

/-- Lookup by unique email: `prisma.user.findUnique({ where: { email } })`. -/
def findUserByEmail (store : List User) (email : String) : Option User :=
  store.find? (fun u => u.email == email)

/-- Row update on the unique id: `prisma.user.update({ where: { id }, data })`
sets the given fields on the row whose id matches. -/
def prismaUpdate (users : List User) (id : Nat) (f : User → User) : List User :=
  users.map (fun u => if u.id = id then f u else u)

/-- Row update for reports: `prisma.report.update({ where: { id }, data })`. -/
def prismaUpdateReport (reports : List Report) (id : Nat) (f : Report → Report) :
    List Report :=
  reports.map (fun t => if t.id = id then f t else t)

/-- OTP generation, `emailService.js`:
`Math.floor(100000 + Math.random() * 900000)` with `r` standing for the
`Math.random()` draw (`0 ≤ r < 1`).  The source then calls `.toString()`;
the numeric value is kept here and rendered with `toString` at use sites. -/
def generateOTP (r : ℚ) : Nat :=
  (Int.floor ((100000 : ℚ) + r * 900000)).toNat

/-- Payload of the 201 success responses of `signup`. -/
structure SignupOk where
  user : PublicUser
  emailSent : Bool
  developmentOTP : Option String
deriving DecidableEq

/-- Signup controller (`validation.js`, `signup`): reject a duplicate email
with 400; otherwise hash the password, draw a 6-digit OTP and a 10-minute
expiry, insert the new row, and answer 201 — with `emailSent := false` and
the OTP leaked in `developmentOTP` when delivery failed.  The Prisma schema
is not among the examined sources; modelled from the spec, the schema
defaults for fields absent from the `create` call are
`isEmailVerified = false`, `points = 0`, `role = "USER"`, and
`createdAt = now`. -/
def signup (store : List User) (freshId : Nat)
    (name mobile email password : String) (hash : String → String)
    (r : ℚ) (now : Nat) (emailSent : Bool) :
    Except ErrResp SignupOk × List User :=
  match findUserByEmail store email with
  | some _ => (.error ⟨400, "User with this email already exists"⟩, store)
  | none =>
    let hashedPassword := hash password
    let otp := toString (generateOTP r)
    let otpExpiry := now + 10 * 60 * 1000
    let user : User :=
      { id := freshId, name := name, mobile := mobile, email := email
        password := hashedPassword, isEmailVerified := false
        otp := some otp, otpExpiry := some otpExpiry
        points := 0, role := "USER", createdAt := now }
    let store1 := store ++ [user]
    if emailSent then
      (.ok { user := sanitize user, emailSent := true, developmentOTP := none },
       store1)
    else
      (.ok { user := sanitize user, emailSent := false, developmentOTP := some otp },
       store1)

/-- Payload of the 200 success responses of `login` and `verifyOTP`:
sanitized user plus token. -/
structure AuthOk where
  user : PublicUser
  token : Token
deriving DecidableEq

/-- The error both failure branches of `login` return. -/
def invalidCredentials : ErrResp := ⟨401, "Invalid email or password"⟩

/-- Login controller (`validation.js`, `login`): unknown email and failed
`bcrypt.compare` both answer 401 `"Invalid email or password"`; on success a
token is signed and the sanitized user returned.  No write occurs. -/
def login (store : List User) (email password : String)
    (compare : String → String → Bool) :
    Except ErrResp AuthOk × List User :=
  match findUserByEmail store email with
  | none => (.error invalidCredentials, store)
  | some user =>
    if compare password user.password then
      (.ok { user := sanitize user, token := jwtSign user.id }, store)
    else
      (.error invalidCredentials, store)

/-- Verify-OTP controller (`validation.js`, `verifyOTP`).  Branch order as in
the source: user lookup, `isEmailVerified`, `!user.otp || !user.otpExpiry`
(JS: the empty string is falsy), `new Date() > user.otpExpiry` (strict),
`user.otp !== otp`; then one update setting `isEmailVerified = true` and
clearing both OTP fields, and a 200 with sanitized user + token. -/
def verifyOTP (store : List User) (email otp : String) (now : Nat) :
    Except ErrResp AuthOk × List User :=
  match findUserByEmail store email with
  | none => (.error ⟨404, "User not found"⟩, store)
  | some user =>
    if user.isEmailVerified then
      (.error ⟨400, "Email is already verified"⟩, store)
    else
      match user.otp, user.otpExpiry with
      | none, _ =>
        (.error ⟨400, "No OTP found. Please request a new one."⟩, store)
      | some _, none =>
        (.error ⟨400, "No OTP found. Please request a new one."⟩, store)
      | some uotp, some uexp =>
        if uotp = "" then
          (.error ⟨400, "No OTP found. Please request a new one."⟩, store)
        else if uexp < now then
          (.error ⟨400, "OTP has expired. Please request a new one."⟩, store)
        else if uotp ≠ otp then
          (.error ⟨400, "Invalid OTP"⟩, store)
        else
          let store1 := prismaUpdate store user.id (fun u =>
            { u with isEmailVerified := true, otp := none, otpExpiry := none })
          let updatedUser : User :=
            { user with isEmailVerified := true, otp := none, otpExpiry := none }
          (.ok { user := sanitize updatedUser, token := jwtSign updatedUser.id },
           store1)

/-- Payload of the 200 success responses of `resendOTP`: only the
development fallback field is observable beside the message. -/
structure ResendOk where
  developmentOTP : Option String
deriving DecidableEq

/-- Resend-OTP controller (`validation.js`, `resendOTP`): user lookup, the
`isEmailVerified` guard, then a fresh OTP and 10-minute expiry overwrite the
stored pair; delivery failure still answers 200 but leaks the OTP in
`developmentOTP`. -/
def resendOTP (store : List User) (email : String) (r : ℚ) (now : Nat)
    (emailSent : Bool) : Except ErrResp ResendOk × List User :=
  match findUserByEmail store email with
  | none => (.error ⟨404, "User not found"⟩, store)
  | some user =>
    if user.isEmailVerified then
      (.error ⟨400, "Email is already verified"⟩, store)
    else
      let otp := toString (generateOTP r)
      let otpExpiry := now + 10 * 60 * 1000
      let store1 := prismaUpdate store user.id (fun u =>
        { u with otp := some otp, otpExpiry := some otpExpiry })
      if emailSent then
        (.ok { developmentOTP := none }, store1)
      else
        (.ok { developmentOTP := some otp }, store1)

/-- The `location` object of a report submission. -/
structure Location where
  latitude : ℚ
  longitude : ℚ
  address : String
deriving DecidableEq

/-- The report row `submitReport` inserts:
status `PENDING`, owner `userId`, both timestamps `now`. -/
def mkReport (freshId userId : Nat) (category description : String)
    (loc : Location) (photo : String) (now : Nat) : Report :=
  { id := freshId, category := category, description := description
    latitude := loc.latitude, longitude := loc.longitude
    address := loc.address, photo := photo, status := "PENDING"
    userId := userId, createdAt := now, updatedAt := now }

/-- Payload of the 201 success response of `submitReport`. -/
structure SubmitOk where
  report : Report
  pointsAwarded : Int
deriving DecidableEq

/-- The 400 error of `submitReport`'s required-field re-check. -/
def missingFields : ErrResp :=
  ⟨400, "Missing required fields: category, description, location, and photo are required"⟩

/-- Submit-report controller (`reportsController`, `submitReport`): re-check
the required fields (JS truthiness), insert the PENDING report, then — in a
separate, non-transactional statement — increment the owner's points by 10.
`pointsUpdateOk` models whether that second store statement succeeds; when it
fails (throws), the catch answers 500 and the already-created report row
stays in the store, since no transaction wraps the two writes. -/
def submitReport (s : Store) (freshId userId : Nat)
    (category description : String) (location : Option Location)
    (photo : String) (now : Nat) (pointsUpdateOk : Bool) :
    Except ErrResp SubmitOk × Store :=
  match location with
  | none => (.error missingFields, s)
  | some loc =>
    if category = "" || description = "" || photo = "" then
      (.error missingFields, s)
    else
      let report := mkReport freshId userId category description loc photo now
      let s1 : Store := { s with reports := s.reports ++ [report] }
      if pointsUpdateOk then
        let award := fun (u : User) => { u with points := u.points + 10 }
        let s2 : Store := { s1 with users := prismaUpdate s1.users userId award }
        (.ok { report := report, pointsAwarded := 10 }, s2)
      else
        (.error ⟨500, "Internal server error while submitting report"⟩, s1)

/-- Pagination metadata block built by both listing controllers. -/
structure Pagination where
  currentPage : Nat
  totalPages : Nat
  totalReports : Nat
  hasNextPage : Bool
  hasPrevPage : Bool
deriving DecidableEq

/-- Body of the listing responses: the page plus its metadata. -/
structure ReportsPage where
  reports : List Report
  pagination : Pagination
deriving DecidableEq

/-- `orderBy: { createdAt: 'desc' }` — newest first. -/
def sortByNewest (rs : List Report) : List Report :=
  rs.mergeSort (fun a b => decide (b.createdAt ≤ a.createdAt))

/-- JS `Math.ceil(totalReports / limit)` on naturals (for `limit > 0`). -/
def jsCeilDiv (a b : Nat) : Nat := (a + b - 1) / b

/-- The page and metadata both listing controllers assemble from a filtered
table: `skip = (page - 1) * limit`, `findMany` with orderBy/skip/take, a
`count` over the same where-clause, and the metadata formulas of the
source. -/
def paginateReports (filtered : List Report) (page limit : Nat) : ReportsPage :=
  let skip := (page - 1) * limit
  let pageReports := ((sortByNewest filtered).drop skip).take limit
  let totalReports := filtered.length
  { reports := pageReports
    pagination :=
      { currentPage := page
        totalPages := jsCeilDiv totalReports limit
        totalReports := totalReports
        hasNextPage := decide (skip + pageReports.length < totalReports)
        hasPrevPage := decide (1 < page) } }

/-- List-own controller (`reportsController`, `getUserReports`): where-clause
`{ userId }` plus the optional upper-cased status filter. -/
def getUserReports (s : Store) (userId page limit : Nat)
    (status : Option String) : ReportsPage :=
  let whereClause := fun (t : Report) =>
    t.userId == userId &&
      (match status with
       | none => true
       | some st => t.status == st.toUpper)
  paginateReports (s.reports.filter whereClause) page limit

/-- Community listing controller (`reportsController`, `getCommunityReports`):
optional category filter and optional upper-cased status filter, no owner
restriction. -/
def getCommunityReports (s : Store) (page limit : Nat)
    (category status : Option String) : ReportsPage :=
  let whereClause := fun (t : Report) =>
    (match category with
     | none => true
     | some c => t.category == c) &&
    (match status with
     | none => true
     | some st => t.status == st.toUpper)
  paginateReports (s.reports.filter whereClause) page limit

/-- Lookup by unique report id: `prisma.report.findUnique({ where: { id } })`. -/
def findReportById (s : Store) (reportId : Nat) : Option Report :=
  s.reports.find? (fun t => t.id == reportId)

/-- The 404 error shared by the three per-report controllers. -/
def reportNotFound : ErrResp := ⟨404, "Report not found"⟩

/-- Get-report-by-id controller (`reportsController`, `getReportById`):
404 when absent, 403 when the caller is neither the owner nor ADMIN. -/
def getReportById (s : Store) (reportId : Nat) (caller : User) :
    Except ErrResp Report :=
  match findReportById s reportId with
  | none => .error reportNotFound
  | some report =>
    if report.userId != caller.id && caller.role != "ADMIN" then
      .error ⟨403, "Access denied. You can only view your own reports."⟩
    else
      .ok report

/-- Update-report controller (`reportsController`, `updateReport`): same 404
and ownership/role gate, then the patch — description and category when
truthy, status only when truthy and the caller is ADMIN (upper-cased) —
always refreshing `updatedAt`. -/
def updateReport (s : Store) (reportId : Nat) (caller : User)
    (description category status : String) (now : Nat) :
    Except ErrResp Report × Store :=
  match findReportById s reportId with
  | none => (.error reportNotFound, s)
  | some existingReport =>
    if existingReport.userId != caller.id && caller.role != "ADMIN" then
      (.error ⟨403, "Access denied. You can only update your own reports."⟩, s)
    else
      let applyPatch := fun (t : Report) =>
        let t1 := { t with updatedAt := now }
        let t2 := if description != "" then { t1 with description := description } else t1
        let t3 := if category != "" then { t2 with category := category } else t2
        if status != "" && caller.role == "ADMIN" then
          { t3 with status := status.toUpper }
        else t3
      let s1 : Store :=
        { s with reports := prismaUpdateReport s.reports reportId applyPatch }
      (.ok (applyPatch existingReport), s1)

/-- Delete-report controller (`reportsController`, `deleteReport`): same 404
and ownership/role gate, then `prisma.report.delete({ where: { id } })`. -/
def deleteReport (s : Store) (reportId : Nat) (caller : User) :
    Except ErrResp Unit × Store :=
  match findReportById s reportId with
  | none => (.error reportNotFound, s)
  | some existingReport =>
    if existingReport.userId != caller.id && caller.role != "ADMIN" then
      (.error ⟨403, "Access denied. You can only delete your own reports."⟩, s)
    else
      (.ok (), { s with reports := s.reports.filter (fun t => !(t.id == reportId)) })

/-- Spec §3 user-record invariant: `otp` and `otpExpiry` both set or both
null, and a verified user has `otp = null`. -/
def userInv (u : User) : Prop :=
  (u.otp = none ↔ u.otpExpiry = none) ∧ (u.isEmailVerified = true → u.otp = none)

instance (u : User) : Decidable (userInv u) := by
  unfold userInv; infer_instance

/-- The invariant over the whole user table. -/
def storeInv (users : List User) : Prop := ∀ u ∈ users, userInv u

instance (users : List User) : Decidable (storeInv users) := by
  unfold storeInv; infer_instance

/-- Primary-key uniqueness of the user table (enforced by the store). -/
def distinctIds (users : List User) : Prop :=
  users.Pairwise (fun a b => a.id ≠ b.id)

instance (users : List User) : Decidable (distinctIds users) := by
  unfold distinctIds; infer_instance

/-- Fixture: an unverified user with a pending OTP. -/
def annUser : User :=
  { id := 1, name := "Ann", mobile := "9876543210", email := "ann@example.com"
    password := "H#Secret1A", isEmailVerified := false
    otp := some "123456", otpExpiry := some 1000
    points := 0, role := "USER", createdAt := 0 }

/-- Fixture: a verified user with no pending OTP, role USER. -/
def bobUser : User :=
  { id := 2, name := "Bob", mobile := "9123456780", email := "bob@example.com"
    password := "H#Passw0rd", isEmailVerified := true
    otp := none, otpExpiry := none
    points := 5, role := "USER", createdAt := 10 }

/-- Fixture: a verified ADMIN user. -/
def adminUser : User :=
  { id := 3, name := "Ada", mobile := "9000000000", email := "ada@example.com"
    password := "H#Adm1nPwd", isEmailVerified := true
    otp := none, otpExpiry := none
    points := 0, role := "ADMIN", createdAt := 20 }

/-- Fixture hash collaborator. -/
def demoHash (s : String) : String := "H#" ++ s

/-- Fixture compare collaborator, matching `demoHash`. -/
def demoCompare (plain digest : String) : Bool := digest == "H#" ++ plain

/-- Fixture location. -/
def demoLoc : Location :=
  { latitude := 19, longitude := 72, address := "Mangrove Bay" }

/-- Fixture report owned by user 1. -/
def demoReport : Report :=
  mkReport 7 1 "pollution" "Oil spill near the dock" demoLoc "photo.jpg" 0

/-- Fixture store for the report-controller witnesses. -/
def reportStore : Store :=
  { users := [annUser, bobUser, adminUser], reports := [demoReport] }

/-- Fixture: 15 community reports (ids 100..114, createdAt 0..14). -/
def manyReports : List Report :=
  (List.range 15).map (fun i =>
    mkReport (100 + i) 1 "other" "community report body" demoLoc "p.jpg" i)

/-- Fixture store holding exactly 15 community reports. -/
def bigStore : Store := { users := [annUser], reports := manyReports }

/-! ## Theorems -/

/-- Range of the generated OTP: `Math.floor(100000 + r * 900000)` lies in
`[100000, 999999]` for every draw `0 ≤ r < 1`. -/
theorem generateOTP_bounds {r : ℚ} (h0 : 0 ≤ r) (h1 : r < 1) :
    100000 ≤ generateOTP r ∧ generateOTP r ≤ 999999 := by
  unfold generateOTP
  have hx0 : (100000 : ℚ) ≤ 100000 + r * 900000 := by nlinarith
  have hx1 : (100000 : ℚ) + r * 900000 < 1000000 := by nlinarith
  have hl : (100000 : ℤ) ≤ Int.floor ((100000 : ℚ) + r * 900000) := by
    refine Int.le_floor.mpr ?_
    exact_mod_cast hx0
  have hu : Int.floor ((100000 : ℚ) + r * 900000) < (1000000 : ℤ) := by
    refine Int.floor_lt.mpr ?_
    exact_mod_cast hx1
  omega

/-- A zero draw yields the smallest OTP. -/
theorem generateOTP_zero : generateOTP 0 = 100000 := by
  unfold generateOTP
  norm_num
  rfl

/-- In a table with pairwise-distinct ids, a row can be recovered from its
id: any member sharing the id of a member `u` is `u` itself. -/
theorem eq_of_mem_of_distinctIds {users : List User} (hd : distinctIds users)
    {u w : User} (hu : u ∈ users) (hw : w ∈ users) (hid : w.id = u.id) :
    w = u := by
  by_contra hne
  have hd' : users.Pairwise (fun a b => a.id ≠ b.id) := hd
  have hsym : Symmetric (fun a b : User => a.id ≠ b.id) :=
    fun a b h e => h e.symm
  exact (hd'.forall hsym hw hu hne) hid

/-- C3: a valid signup on a fresh email creates an account with
`isEmailVerified = false`, a non-null 6-digit OTP (value in
`[100000, 999999]`), and `otpExpiry` exactly 10 minutes after creation; the
returned record carries only id, name, mobile, email, isEmailVerified and
createdAt — neither the password hash nor the OTP. -/
theorem c3_signup_fresh_account (store : List User) (freshId : Nat)
    (name mobile email password : String) (hash : String → String)
    (r : ℚ) (now : Nat) (emailSent : Bool)
    (hfresh : findUserByEmail store email = none) (h0 : 0 ≤ r) (h1 : r < 1) :
    100000 ≤ generateOTP r ∧ generateOTP r ≤ 999999 ∧
    (signup store freshId name mobile email password hash r now emailSent).2 =
      store ++ [{ id := freshId, name := name, mobile := mobile, email := email
                  password := hash password, isEmailVerified := false
                  otp := some (toString (generateOTP r))
                  otpExpiry := some (now + 10 * 60 * 1000)
                  points := 0, role := "USER", createdAt := now }] ∧
    (signup store freshId name mobile email password hash r now emailSent).1 =
      .ok { user := ⟨freshId, name, mobile, email, false, now⟩
            emailSent := emailSent
            developmentOTP :=
              if emailSent then none else some (toString (generateOTP r)) } := by
  obtain ⟨hlo, hhi⟩ := generateOTP_bounds h0 h1
  refine ⟨hlo, hhi, ?_, ?_⟩ <;>
    · unfold signup
      rw [hfresh]
      cases emailSent <;> simp [sanitize]

/-- C3 witness: signing up on the empty store with draw `r = 0`. -/
theorem c3_signup_fresh_account_witness :
    findUserByEmail [] "ann@example.com" = none ∧ (0 : ℚ) ≤ 0 ∧ (0 : ℚ) < 1 ∧
    (100000 ≤ generateOTP 0 ∧ generateOTP 0 ≤ 999999 ∧
     (signup [] 1 "Ann" "9876543210" "ann@example.com" "Secret1A"
        demoHash 0 0 true).2 =
       [] ++ [{ id := 1, name := "Ann", mobile := "9876543210"
                email := "ann@example.com", password := demoHash "Secret1A"
                isEmailVerified := false, otp := some (toString (generateOTP 0))
                otpExpiry := some (0 + 10 * 60 * 1000)
                points := 0, role := "USER", createdAt := 0 }] ∧
     (signup [] 1 "Ann" "9876543210" "ann@example.com" "Secret1A"
        demoHash 0 0 true).1 =
       .ok { user := ⟨1, "Ann", "9876543210", "ann@example.com", false, 0⟩
             emailSent := true
             developmentOTP :=
               if true then none else some (toString (generateOTP 0)) }) :=
  ⟨rfl, by norm_num, by norm_num,
   c3_signup_fresh_account [] 1 "Ann" "9876543210" "ann@example.com" "Secret1A"
     demoHash 0 0 true rfl (by norm_num) (by norm_num)⟩

/-- C5: a login with an unknown email and a login with a known email but a
failing password comparison return the very same response — status 401,
message `"Invalid email or password"` — so the two failures are
indistinguishable. -/
theorem c5_login_uniform_error (store : List User) (u : User)
    (e1 p1 e2 p2 : String) (compare : String → String → Bool)
    (h1 : findUserByEmail store e1 = none)
    (h2 : findUserByEmail store e2 = some u)
    (hpw : compare p2 u.password = false) :
    login store e1 p1 compare = (.error invalidCredentials, store) ∧
    login store e2 p2 compare = (.error invalidCredentials, store) ∧
    login store e1 p1 compare = login store e2 p2 compare := by
  have ha : login store e1 p1 compare = (.error invalidCredentials, store) := by
    unfold login; rw [h1]
  have hb : login store e2 p2 compare = (.error invalidCredentials, store) := by
    unfold login; rw [h2]; simp [hpw]
  exact ⟨ha, hb, ha.trans hb.symm⟩

/-- C5 witness: unknown email vs wrong password against `annUser`. -/
theorem c5_login_uniform_error_witness :
    findUserByEmail [annUser] "nobody@example.com" = none ∧
    findUserByEmail [annUser] "ann@example.com" = some annUser ∧
    demoCompare "WrongPass" annUser.password = false ∧
    (login [annUser] "nobody@example.com" "whatever" demoCompare =
       (.error invalidCredentials, [annUser]) ∧
     login [annUser] "ann@example.com" "WrongPass" demoCompare =
       (.error invalidCredentials, [annUser]) ∧
     login [annUser] "nobody@example.com" "whatever" demoCompare =
       login [annUser] "ann@example.com" "WrongPass" demoCompare) :=
  ⟨rfl, rfl, by decide,
   c5_login_uniform_error [annUser] annUser "nobody@example.com" "whatever"
     "ann@example.com" "WrongPass" demoCompare rfl rfl (by decide)⟩

/-- C1: full contract of `verifyOTP`.  It answers 404 when no user has the
email; 400 "already verified" when verified; 400 "no OTP" when `otp` is
null; 400 "expired" when the current time strictly exceeds `otpExpiry`,
whatever code was supplied; 400 "Invalid OTP" when the codes differ; and on
success one store update sets `isEmailVerified = true` and clears both OTP
fields while the response carries the sanitized user and a session token
bound to the user's id. -/
theorem c1_verifyOTP_contract (store : List User) (email code : String)
    (now : Nat) :
    (findUserByEmail store email = none →
      verifyOTP store email code now = (.error ⟨404, "User not found"⟩, store)) ∧
    (∀ u, findUserByEmail store email = some u →
      (u.isEmailVerified = true →
        verifyOTP store email code now =
          (.error ⟨400, "Email is already verified"⟩, store)) ∧
      (u.isEmailVerified = false → u.otp = none →
        verifyOTP store email code now =
          (.error ⟨400, "No OTP found. Please request a new one."⟩, store)) ∧
      (∀ c e, u.isEmailVerified = false → u.otp = some c → c ≠ "" →
        u.otpExpiry = some e →
        (e < now →
          verifyOTP store email code now =
            (.error ⟨400, "OTP has expired. Please request a new one."⟩, store)) ∧
        (now ≤ e → c ≠ code →
          verifyOTP store email code now =
            (.error ⟨400, "Invalid OTP"⟩, store)) ∧
        (now ≤ e → c = code →
          verifyOTP store email code now =
            (.ok { user := ⟨u.id, u.name, u.mobile, u.email, true, u.createdAt⟩
                   token := jwtSign u.id },
             prismaUpdate store u.id (fun w =>
               { w with isEmailVerified := true, otp := none,
                        otpExpiry := none }))))) := by
  constructor
  · intro h
    unfold verifyOTP
    rw [h]
  · intro u hu
    refine ⟨?_, ?_, ?_⟩
    · intro hv
      unfold verifyOTP
      rw [hu]
      simp [hv]
    · intro hv ho
      unfold verifyOTP
      rw [hu]
      simp [hv, ho]
    · intro c e hv ho hc hex
      refine ⟨?_, ?_, ?_⟩
      · intro hlt
        unfold verifyOTP
        rw [hu]
        simp [hv, ho, hex, hc, hlt]
      · intro hle hne
        unfold verifyOTP
        rw [hu]
        simp [hv, ho, hex, hc, Nat.not_lt.mpr hle, hne]
      · intro hle heq
        unfold verifyOTP
        rw [hu]
        subst heq
        simp [hv, ho, hex, hc, Nat.not_lt.mpr hle, sanitize]

/-- C1 witness: verifying `annUser`'s code before expiry succeeds with the
stated update. -/
theorem c1_verifyOTP_contract_witness :
    findUserByEmail [annUser] "ann@example.com" = some annUser ∧
    annUser.isEmailVerified = false ∧ annUser.otp = some "123456" ∧
    ("123456" : String) ≠ "" ∧ annUser.otpExpiry = some 1000 ∧
    (500 : Nat) ≤ 1000 ∧
    verifyOTP [annUser] "ann@example.com" "123456" 500 =
      (.ok { user := ⟨1, "Ann", "9876543210", "ann@example.com", true, 0⟩
             token := jwtSign 1 },
       prismaUpdate [annUser] 1 (fun w =>
         { w with isEmailVerified := true, otp := none, otpExpiry := none })) :=
  ⟨rfl, rfl, rfl, by decide, rfl, by decide,
   (((c1_verifyOTP_contract [annUser] "ann@example.com" "123456" 500).2
       annUser rfl).2.2 "123456" 1000 rfl rfl (by decide) rfl).2.2
     (by decide) rfl⟩

/-- C10: at the instant `now = otpExpiry` a correct code still verifies —
the expiry failure arises only when the current time strictly exceeds
`otpExpiry`. -/
theorem c10_verify_at_exact_expiry (store : List User) (email code : String)
    (now : Nat) :
    (∀ u c, findUserByEmail store email = some u → u.isEmailVerified = false →
      u.otp = some c → c ≠ "" → u.otpExpiry = some now → c = code →
      (verifyOTP store email code now).1 =
        .ok { user := ⟨u.id, u.name, u.mobile, u.email, true, u.createdAt⟩
              token := jwtSign u.id }) ∧
    (∀ u e, findUserByEmail store email = some u → u.otpExpiry = some e →
      (verifyOTP store email code now).1 =
        .error ⟨400, "OTP has expired. Please request a new one."⟩ →
      e < now) := by
  constructor
  · intro u c hu hv ho hc hex heq
    have h := (((c1_verifyOTP_contract store email code now).2 u hu).2.2
      c now hv ho hc hex).2.2 (Nat.le_refl now) heq
    rw [h]
  · intro u e hu hex hres
    unfold verifyOTP at hres
    rw [hu] at hres
    by_cases hv : u.isEmailVerified
    · simp [hv] at hres
    · by_cases hlt : e < now
      · exact hlt
      · rcases ho : u.otp with _ | c
        · simp [hv, ho] at hres
        · by_cases hce : c = ""
          · simp [hv, ho, hex, hce] at hres
          · by_cases hne : c = code
            · subst hne
              simp [hv, ho, hex, hce, hlt] at hres
            · simp [hv, ho, hex, hce, hlt, hne] at hres

/-- C10 witness: `annUser`'s expiry is 1000; verifying the correct code at
time exactly 1000 succeeds. -/
theorem c10_verify_at_exact_expiry_witness :
    findUserByEmail [annUser] "ann@example.com" = some annUser ∧
    annUser.isEmailVerified = false ∧ annUser.otp = some "123456" ∧
    ("123456" : String) ≠ "" ∧ annUser.otpExpiry = some 1000 ∧
    (verifyOTP [annUser] "ann@example.com" "123456" 1000).1 =
      .ok { user := ⟨1, "Ann", "9876543210", "ann@example.com", true, 0⟩
            token := jwtSign 1 } :=
  ⟨rfl, rfl, rfl, by decide, rfl,
   (c10_verify_at_exact_expiry [annUser] "ann@example.com" "123456" 1000).1
     annUser "123456" rfl rfl rfl (by decide) rfl rfl⟩

/-- C2 (refuting the claimed transactional boundary): when the points
increment fails after the report row was created, `submitReport` answers 500
yet the report stays persisted and the owner's points stay unchanged — the
two writes are separate statements with no transaction around them. -/
theorem c2_report_persisted_without_points :
    submitReport { users := [annUser], reports := [] } 7 1 "pollution"
        "Oil spill near the dock" (some demoLoc) "photo.jpg" 0 false =
      (.error ⟨500, "Internal server error while submitting report"⟩,
       { users := [annUser], reports := [demoReport] }) ∧
    annUser.points = 0 ∧ demoReport.userId = annUser.id := by
  refine ⟨?_, rfl, rfl⟩
  rfl

/-- C4 (refuting the production gating): on email-delivery failure both
`signup` and `resendOTP` put the OTP into the response unconditionally —
neither consults any environment flag, so the leak occurs in production
builds as well. -/
theorem c4_otp_leaked_in_response :
    (signup [] 1 "Ann" "9876543210" "ann@example.com" "Secret1A"
        demoHash 0 0 false).1 =
      .ok { user := ⟨1, "Ann", "9876543210", "ann@example.com", false, 0⟩
            emailSent := false, developmentOTP := some "100000" } ∧
    (resendOTP [annUser] "ann@example.com" 0 500 false).1 =
      .ok { developmentOTP := some "100000" } := by
  constructor
  · show (signup [] 1 "Ann" "9876543210" "ann@example.com" "Secret1A"
        demoHash 0 0 false).1 = _
    unfold signup
    simp [sanitize, generateOTP_zero, findUserByEmail]
    rfl
  · unfold resendOTP
    simp [generateOTP_zero, findUserByEmail, annUser]
    rfl

/-- C6: a successful submission (fields present, points statement succeeds)
creates exactly one new PENDING report owned by `userId`, adds exactly 10
points to every row with the owner's id, and leaves every other user row
untouched. -/
theorem c6_submit_awards_owner_only (s : Store) (freshId userId : Nat)
    (category description : String) (loc : Location) (photo : String)
    (now : Nat)
    (hc : category ≠ "") (hd : description ≠ "") (hp : photo ≠ "") :
    (submitReport s freshId userId category description (some loc) photo
        now true).1 =
      .ok { report := mkReport freshId userId category description loc photo now
            pointsAwarded := 10 } ∧
    (mkReport freshId userId category description loc photo now).status =
      "PENDING" ∧
    (mkReport freshId userId category description loc photo now).userId =
      userId ∧
    (submitReport s freshId userId category description (some loc) photo
        now true).2.reports =
      s.reports ++ [mkReport freshId userId category description loc photo now] ∧
    (∀ w ∈ s.users, w.id ≠ userId →
      w ∈ (submitReport s freshId userId category description (some loc) photo
        now true).2.users) ∧
    (∀ w ∈ s.users, w.id = userId →
      { w with points := w.points + 10 } ∈
        (submitReport s freshId userId category description (some loc) photo
          now true).2.users) := by
  have hrun : submitReport s freshId userId category description (some loc)
      photo now true =
      (.ok { report := mkReport freshId userId category description loc photo now
             pointsAwarded := 10 },
       { users := prismaUpdate s.users userId
           (fun u => { u with points := u.points + 10 })
         reports := s.reports ++
           [mkReport freshId userId category description loc photo now] }) := by
    unfold submitReport
    simp [hc, hd, hp]
  refine ⟨by rw [hrun], rfl, rfl, by rw [hrun], ?_, ?_⟩
  · intro w hw hne
    rw [hrun]
    refine List.mem_map.mpr ⟨w, hw, ?_⟩
    simp [hne]
  · intro w hw heq
    rw [hrun]
    refine List.mem_map.mpr ⟨w, hw, ?_⟩
    simp [heq]

/-- C6 witness: Ann (id 1) submits a report into a two-user store; Ann gains
10 points, Bob's row is unchanged. -/
theorem c6_submit_awards_owner_only_witness :
    ("pollution" : String) ≠ "" ∧ ("Oil spill near the dock" : String) ≠ "" ∧
    ("photo.jpg" : String) ≠ "" ∧
    ((submitReport { users := [annUser, bobUser], reports := [] } 7 1
        "pollution" "Oil spill near the dock" (some demoLoc) "photo.jpg"
        0 true).1 =
      .ok { report := mkReport 7 1 "pollution" "Oil spill near the dock"
              demoLoc "photo.jpg" 0
            pointsAwarded := 10 } ∧
     (mkReport 7 1 "pollution" "Oil spill near the dock" demoLoc "photo.jpg"
        0).status = "PENDING" ∧
     (mkReport 7 1 "pollution" "Oil spill near the dock" demoLoc "photo.jpg"
        0).userId = 1 ∧
     (submitReport { users := [annUser, bobUser], reports := [] } 7 1
        "pollution" "Oil spill near the dock" (some demoLoc) "photo.jpg"
        0 true).2.reports =
       [] ++ [mkReport 7 1 "pollution" "Oil spill near the dock" demoLoc
         "photo.jpg" 0] ∧
     (∀ w ∈ [annUser, bobUser], w.id ≠ 1 →
       w ∈ (submitReport { users := [annUser, bobUser], reports := [] } 7 1
         "pollution" "Oil spill near the dock" (some demoLoc) "photo.jpg"
         0 true).2.users) ∧
     (∀ w ∈ [annUser, bobUser], w.id = 1 →
       { w with points := w.points + 10 } ∈
         (submitReport { users := [annUser, bobUser], reports := [] } 7 1
           "pollution" "Oil spill near the dock" (some demoLoc) "photo.jpg"
           0 true).2.users)) :=
  ⟨by decide, by decide, by decide,
   c6_submit_awards_owner_only { users := [annUser, bobUser], reports := [] }
     7 1 "pollution" "Oil spill near the dock" demoLoc "photo.jpg" 0
     (by decide) (by decide) (by decide)⟩

/-- C7: on a missing report id, getReportById, updateReport and deleteReport
all answer 404; on an existing report, a caller who is neither the owner nor
ADMIN gets 403 from each of the three, while the owner or an ADMIN passes
the check and each operation proceeds. -/
theorem c7_report_access_control (s : Store) (reportId : Nat) (caller : User)
    (description category status : String) (now : Nat) :
    (findReportById s reportId = none →
      getReportById s reportId caller = .error reportNotFound ∧
      updateReport s reportId caller description category status now =
        (.error reportNotFound, s) ∧
      deleteReport s reportId caller = (.error reportNotFound, s)) ∧
    (∀ t, findReportById s reportId = some t →
      (t.userId ≠ caller.id → caller.role ≠ "ADMIN" →
        getReportById s reportId caller =
          .error ⟨403, "Access denied. You can only view your own reports."⟩ ∧
        updateReport s reportId caller description category status now =
          (.error ⟨403, "Access denied. You can only update your own reports."⟩,
           s) ∧
        deleteReport s reportId caller =
          (.error ⟨403, "Access denied. You can only delete your own reports."⟩,
           s)) ∧
      ((t.userId = caller.id ∨ caller.role = "ADMIN") →
        getReportById s reportId caller = .ok t ∧
        (updateReport s reportId caller description category status now).1.isOk
          = true ∧
        (deleteReport s reportId caller).1.isOk = true)) := by
  constructor
  · intro h
    refine ⟨?_, ?_, ?_⟩ <;>
      · first
        | (unfold getReportById; rw [h])
        | (unfold updateReport; rw [h])
        | (unfold deleteReport; rw [h])
  · intro t ht
    constructor
    · intro hown hrole
      refine ⟨?_, ?_, ?_⟩ <;>
        · first
          | (unfold getReportById; rw [ht])
          | (unfold updateReport; rw [ht])
          | (unfold deleteReport; rw [ht])
          simp [hown, hrole]
    · intro hpass
      have hguard : (t.userId != caller.id && caller.role != "ADMIN") = false := by
        rcases hpass with h | h <;> simp [h]
      refine ⟨?_, ?_, ?_⟩
      · unfold getReportById; rw [ht]; simp [hguard]
      · unfold updateReport; rw [ht]; simp [hguard, Except.isOk, Except.toBool]
      · unfold deleteReport; rw [ht]; simp [hguard, Except.isOk, Except.toBool]

/-- C7 witness: Bob (role USER, id 2) is forbidden on Ann's report (id 7),
while admin Ada passes the check on the same report. -/
theorem c7_report_access_control_witness :
    findReportById reportStore 7 = some demoReport ∧
    demoReport.userId ≠ bobUser.id ∧ bobUser.role ≠ "ADMIN" ∧
    (getReportById reportStore 7 bobUser =
       .error ⟨403, "Access denied. You can only view your own reports."⟩ ∧
     updateReport reportStore 7 bobUser "" "" "" 99 =
       (.error ⟨403, "Access denied. You can only update your own reports."⟩,
        reportStore) ∧
     deleteReport reportStore 7 bobUser =
       (.error ⟨403, "Access denied. You can only delete your own reports."⟩,
        reportStore)) ∧
    (demoReport.userId = adminUser.id ∨ adminUser.role = "ADMIN") ∧
    (getReportById reportStore 7 adminUser = .ok demoReport ∧
     (updateReport reportStore 7 adminUser "" "" "" 99).1.isOk = true ∧
     (deleteReport reportStore 7 adminUser).1.isOk = true) :=
  ⟨rfl, by decide, by decide,
   ((c7_report_access_control reportStore 7 bobUser "" "" "" 99).2
      demoReport rfl).1 (by decide) (by decide),
   Or.inr (by decide),
   ((c7_report_access_control reportStore 7 adminUser "" "" "" 99).2
      demoReport rfl).2 (Or.inr (by decide))⟩

/-- C8: each account operation — signup, verifyOTP, resendOTP, login —
preserves the user-record invariant (`otp`/`otpExpiry` both set or both
null, and verified ⟹ `otp = null`) over a well-formed store with distinct
ids. -/
theorem c8_account_ops_preserve_invariant
    (store : List User) (freshId : Nat)
    (name mobile email password code : String)
    (hash : String → String) (compare : String → String → Bool)
    (r : ℚ) (now : Nat) (emailSent : Bool)
    (hinv : storeInv store) (hids : distinctIds store) :
    storeInv (signup store freshId name mobile email password hash r now
      emailSent).2 ∧
    storeInv (verifyOTP store email code now).2 ∧
    storeInv (resendOTP store email r now emailSent).2 ∧
    storeInv (login store email password compare).2 := by
  refine ⟨?_, ?_, ?_, ?_⟩
  · -- signup
    rcases hfind : findUserByEmail store email with _ | u
    · have hrun : (signup store freshId name mobile email password hash r now
          emailSent).2 =
          store ++ [{ id := freshId, name := name, mobile := mobile
                      email := email, password := hash password
                      isEmailVerified := false
                      otp := some (toString (generateOTP r))
                      otpExpiry := some (now + 10 * 60 * 1000)
                      points := 0, role := "USER", createdAt := now }] := by
        unfold signup
        rw [hfind]
        cases emailSent <;> rfl
      rw [hrun]
      intro v hv
      rcases List.mem_append.mp hv with h | h
      · exact hinv v h
      · rw [List.mem_singleton.mp h]
        exact ⟨by simp, by simp⟩
    · have hrun : (signup store freshId name mobile email password hash r now
          emailSent).2 = store := by
        unfold signup
        rw [hfind]
      rw [hrun]
      exact hinv
  · -- verifyOTP
    rcases hfind : findUserByEmail store email with _ | u
    · have hrun : (verifyOTP store email code now).2 = store := by
        unfold verifyOTP; rw [hfind]
      rw [hrun]; exact hinv
    · by_cases hv : u.isEmailVerified
      · have hrun : (verifyOTP store email code now).2 = store := by
          unfold verifyOTP; rw [hfind]; simp [hv]
        rw [hrun]; exact hinv
      · rcases ho : u.otp with _ | c
        · have hrun : (verifyOTP store email code now).2 = store := by
            unfold verifyOTP; rw [hfind]; simp [hv, ho]
          rw [hrun]; exact hinv
        · rcases hex : u.otpExpiry with _ | e
          · have hrun : (verifyOTP store email code now).2 = store := by
              unfold verifyOTP; rw [hfind]; simp [hv, ho, hex]
            rw [hrun]; exact hinv
          · by_cases hce : c = ""
            · have hrun : (verifyOTP store email code now).2 = store := by
                unfold verifyOTP; rw [hfind]; simp [hv, ho, hex, hce]
              rw [hrun]; exact hinv
            · by_cases hlt : e < now
              · have hrun : (verifyOTP store email code now).2 = store := by
                  unfold verifyOTP; rw [hfind]; simp [hv, ho, hex, hce, hlt]
                rw [hrun]; exact hinv
              · by_cases hne : c = code
                · have hrun : (verifyOTP store email code now).2 =
                      prismaUpdate store u.id (fun w =>
                        { w with isEmailVerified := true, otp := none,
                                 otpExpiry := none }) := by
                    unfold verifyOTP; rw [hfind]
                    subst hne
                    simp [hv, ho, hex, hce, hlt]
                  rw [hrun]
                  intro v hv'
                  rcases List.mem_map.mp hv' with ⟨w, hw, rfl⟩
                  by_cases hid : w.id = u.id
                  · simp only [hid, if_pos]
                    exact ⟨by simp, fun _ => by simp⟩
                  · simp only [if_neg hid]
                    exact hinv w hw
                · have hrun : (verifyOTP store email code now).2 = store := by
                    unfold verifyOTP; rw [hfind]
                    simp [hv, ho, hex, hce, hlt, hne]
                  rw [hrun]; exact hinv
  · -- resendOTP
    rcases hfind : findUserByEmail store email with _ | u
    · have hrun : (resendOTP store email r now emailSent).2 = store := by
        unfold resendOTP; rw [hfind]
      rw [hrun]; exact hinv
    · by_cases hv : u.isEmailVerified
      · have hrun : (resendOTP store email r now emailSent).2 = store := by
          unfold resendOTP; rw [hfind]; simp [hv]
        rw [hrun]; exact hinv
      · have hrun : (resendOTP store email r now emailSent).2 =
            prismaUpdate store u.id (fun w =>
              { w with otp := some (toString (generateOTP r))
                       otpExpiry := some (now + 10 * 60 * 1000) }) := by
          unfold resendOTP; rw [hfind]
          cases emailSent <;> simp [hv]
        rw [hrun]
        have humem : u ∈ store := List.mem_of_find?_eq_some hfind
        intro v hv'
        rcases List.mem_map.mp hv' with ⟨w, hw, rfl⟩
        by_cases hid : w.id = u.id
        · have hwu : w = u := eq_of_mem_of_distinctIds hids humem hw hid
          subst hwu
          simp only [hid, if_pos]
          refine ⟨by simp, ?_⟩
          intro hcontra
          exact absurd hcontra hv
        · simp only [if_neg hid]
          exact hinv w hw
  · -- login
    rcases hfind : findUserByEmail store email with _ | u
    · have hrun : (login store email password compare).2 = store := by
        unfold login; rw [hfind]
      rw [hrun]; exact hinv
    · have hrun : (login store email password compare).2 = store := by
        unfold login; rw [hfind]
        by_cases hcmp : compare password u.password <;> simp [hcmp]
      rw [hrun]; exact hinv

/-- C8 witness: the invariant holds after each operation runs on the
well-formed singleton store `[annUser]`. -/
theorem c8_account_ops_preserve_invariant_witness :
    storeInv [annUser] ∧ distinctIds [annUser] ∧
    (storeInv (signup [annUser] 5 "Cay" "9012345678" "ann@example.com"
        "Secret1A" demoHash 0 500 true).2 ∧
     storeInv (verifyOTP [annUser] "ann@example.com" "123456" 500).2 ∧
     storeInv (resendOTP [annUser] "ann@example.com" 0 500 true).2 ∧
     storeInv (login [annUser] "ann@example.com" "Secret1A" demoCompare).2) :=
  ⟨by decide, by decide,
   c8_account_ops_preserve_invariant [annUser] 5 "Cay" "9012345678"
     "ann@example.com" "Secret1A" "123456" demoHash demoCompare 0 500 true
     (by decide) (by decide)⟩

/-- The page both listing controllers return is sorted newest-first: it is a
take/drop slice of the `createdAt`-descending sort. -/
theorem page_sorted_newest_first (filtered : List Report) (skip limit : Nat) :
    ((((sortByNewest filtered).drop skip).take limit).Pairwise
      (fun a b => b.createdAt ≤ a.createdAt)) := by
  have hs : (sortByNewest filtered).Pairwise
      (fun a b => decide (b.createdAt ≤ a.createdAt) = true) := by
    unfold sortByNewest
    apply List.sorted_mergeSort
    · intro a b c hab hbc
      simp only [decide_eq_true_eq] at hab hbc ⊢
      omega
    · intro a b
      simp only [Bool.or_eq_true, decide_eq_true_eq]
      omega
  have hsub : List.Sublist (((sortByNewest filtered).drop skip).take limit)
      (sortByNewest filtered) :=
    (List.take_sublist _ _).trans (List.drop_sublist _ _)
  exact (List.Pairwise.sublist hsub hs).imp (fun h => by simpa using h)

/-- `jsCeilDiv a b` is the exact ceiling of `a / b` for positive `b`: `a`
fits in that many pages of size `b`, and one page fewer would not fit. -/
theorem jsCeilDiv_bounds (a b : Nat) (hb : 0 < b) :
    a ≤ jsCeilDiv a b * b ∧ jsCeilDiv a b * b < a + b := by
  unfold jsCeilDiv
  have h1 : b * ((a + b - 1) / b) + (a + b - 1) % b = a + b - 1 :=
    Nat.div_add_mod (a + b - 1) b
  have h2 : (a + b - 1) % b < b := Nat.mod_lt _ hb
  have h3 : (a + b - 1) / b * b = b * ((a + b - 1) / b) := Nat.mul_comm _ _
  omega

/-- Contract of the shared pagination kernel: sorted page, current page,
exact total count, ceiling page count, and the has-next / has-previous
flags. -/
theorem paginateReports_spec (filtered : List Report) (page limit : Nat) :
    (paginateReports filtered page limit).reports.Pairwise
      (fun a b => b.createdAt ≤ a.createdAt) ∧
    (paginateReports filtered page limit).pagination.currentPage = page ∧
    (paginateReports filtered page limit).pagination.totalReports =
      filtered.length ∧
    (0 < limit →
      filtered.length ≤
        (paginateReports filtered page limit).pagination.totalPages * limit ∧
      (paginateReports filtered page limit).pagination.totalPages * limit <
        filtered.length + limit) ∧
    ((paginateReports filtered page limit).pagination.hasPrevPage = true ↔
      1 < page) ∧
    ((paginateReports filtered page limit).pagination.hasNextPage = true ↔
      (page - 1) * limit +
        (paginateReports filtered page limit).reports.length <
        filtered.length) := by
  refine ⟨page_sorted_newest_first filtered _ _, rfl, rfl, ?_, ?_, ?_⟩
  · intro hl
    exact jsCeilDiv_bounds filtered.length limit hl
  · exact decide_eq_true_iff
  · exact decide_eq_true_iff

/-- On a 15-element table, page 2 of size 10 holds the remaining 5 entries
and is the last page. -/
theorem paginateReports_page2_of_15 (filtered : List Report)
    (h15 : filtered.length = 15) :
    (paginateReports filtered 2 10).reports.length = 5 ∧
    (paginateReports filtered 2 10).pagination.hasNextPage = false ∧
    (paginateReports filtered 2 10).pagination.hasPrevPage = true := by
  have hlen : (paginateReports filtered 2 10).reports.length = 5 := by
    show ((((sortByNewest filtered).drop ((2 - 1) * 10)).take 10)).length = 5
    simp [sortByNewest, h15]
  refine ⟨hlen, ?_, by simp [paginateReports]⟩
  show decide ((2 - 1) * 10 +
      ((((sortByNewest filtered).drop ((2 - 1) * 10)).take 10)).length <
      filtered.length) = false
  simp [sortByNewest, h15]

/-- C9: both listing endpoints return a newest-first page together with the
pagination metadata — current page, ceiling total-page count, exact total
count, has-next and has-previous flags — and over exactly 15 community
reports, page 2 with page size 10 holds 5 reports with
`hasNextPage = false` and `hasPrevPage = true`. -/
theorem c9_pagination_contract (s : Store) (userId page limit : Nat) :
    ((getUserReports s userId page limit none).reports.Pairwise
        (fun a b => b.createdAt ≤ a.createdAt) ∧
     (getUserReports s userId page limit none).pagination.currentPage = page ∧
     (getUserReports s userId page limit none).pagination.totalReports =
       (s.reports.filter (fun t => t.userId == userId)).length ∧
     (0 < limit →
       (getUserReports s userId page limit none).pagination.totalReports ≤
         (getUserReports s userId page limit none).pagination.totalPages *
           limit ∧
       (getUserReports s userId page limit none).pagination.totalPages * limit <
         (getUserReports s userId page limit none).pagination.totalReports +
           limit) ∧
     ((getUserReports s userId page limit none).pagination.hasPrevPage = true ↔
       1 < page) ∧
     ((getUserReports s userId page limit none).pagination.hasNextPage = true ↔
       (page - 1) * limit +
         (getUserReports s userId page limit none).reports.length <
         (getUserReports s userId page limit none).pagination.totalReports)) ∧
    ((getCommunityReports s page limit none none).reports.Pairwise
        (fun a b => b.createdAt ≤ a.createdAt) ∧
     (getCommunityReports s page limit none none).pagination.currentPage =
       page ∧
     (getCommunityReports s page limit none none).pagination.totalReports =
       s.reports.length ∧
     (0 < limit →
       (getCommunityReports s page limit none none).pagination.totalReports ≤
         (getCommunityReports s page limit none none).pagination.totalPages *
           limit ∧
       (getCommunityReports s page limit none none).pagination.totalPages *
           limit <
         (getCommunityReports s page limit none none).pagination.totalReports +
           limit) ∧
     ((getCommunityReports s page limit none none).pagination.hasPrevPage = true
        ↔ 1 < page) ∧
     ((getCommunityReports s page limit none none).pagination.hasNextPage = true
        ↔ (page - 1) * limit +
            (getCommunityReports s page limit none none).reports.length <
            (getCommunityReports s page limit none none).pagination.totalReports)) ∧
    (s.reports.length = 15 →
      (getCommunityReports s 2 10 none none).reports.length = 5 ∧
      (getCommunityReports s 2 10 none none).pagination.hasNextPage = false ∧
      (getCommunityReports s 2 10 none none).pagination.hasPrevPage = true) := by
  refine ⟨?_, ?_, ?_⟩
  · have h := paginateReports_spec
      (s.reports.filter (fun t => t.userId == userId &&
        (match (none : Option String) with
         | none => true
         | some st => t.status == st.toUpper))) page limit
    refine ⟨h.1, h.2.1, ?_, h.2.2.2.1, h.2.2.2.2.1, h.2.2.2.2.2⟩
    refine h.2.2.1.trans (congrArg List.length ?_)
    exact List.filter_congr (fun t _ => Bool.and_true _)
  · have h := paginateReports_spec
      (s.reports.filter (fun t =>
        (match (none : Option String) with
         | none => true
         | some c => t.category == c) &&
        (match (none : Option String) with
         | none => true
         | some st => t.status == st.toUpper))) page limit
    refine ⟨h.1, h.2.1, ?_, h.2.2.2.1, h.2.2.2.2.1, h.2.2.2.2.2⟩
    refine h.2.2.1.trans (congrArg List.length ?_)
    exact List.filter_true s.reports
  · intro h15
    exact paginateReports_page2_of_15
      (s.reports.filter (fun t =>
        (match (none : Option String) with
         | none => true
         | some c => t.category == c) &&
        (match (none : Option String) with
         | none => true
         | some st => t.status == st.toUpper)))
      ((congrArg List.length (List.filter_true s.reports)).trans h15)

/-- C9 witness: the fixture store of 15 community reports, page 2 of
size 10. -/
theorem c9_pagination_contract_witness :
    bigStore.reports.length = 15 ∧
    ((getCommunityReports bigStore 2 10 none none).reports.length = 5 ∧
     (getCommunityReports bigStore 2 10 none none).pagination.hasNextPage =
       false ∧
     (getCommunityReports bigStore 2 10 none none).pagination.hasPrevPage =
       true) :=
  ⟨by decide,
   (c9_pagination_contract bigStore 0 2 10).2.2 (by decide)⟩

end GreenShield
